import Mathlib

/-!
Verification development for the Legal-AI repository.

The definitions below are shallow embeddings of the repository's code:

* the PostgreSQL function hybrid_search_2026, the cascade-delete behaviour of
  document_chunks_2026 and the sample-data loader insert_sample_data_2026
  (src/database/setup.sql);
* the Reciprocal Rank Fusion scoring described in the specification (the
  backend module that implements it is not part of the provided sources);
* the login form validation and submission of src/frontend/src/pages/Login.jsx;
* the query request issued by src/frontend/src/pages/Chat.jsx;
* the question bank, question generator and answer evaluator of
  src/frontend/LegalQATestSuite.js (JavaScript number arithmetic is modelled
  by explicit IEEE-754 double rounding over the rationals).

Rational numbers stand for SQL floats and JavaScript numbers; where the exact
real-versus-double distinction matters (the evaluator score) the double
rounding is modelled explicitly.
-/

set_option maxRecDepth 8192

namespace LegalAI

/-! ### Store-level hybrid search (src/database/setup.sql, hybrid_search_2026)

A row of legal_documents_2026 is abstracted to the three columns the function
returns; the embedding column and the tsvector column only enter through the
three opaque query-dependent measurements:
`dist d` models `d.embedding <=> query_embedding` (cosine distance),
`ftsRank d` models `ts_rank(d.content_tsvector, plainto_tsquery(query_text))`,
`ftsMatch d` models `d.content_tsvector @@ plainto_tsquery(query_text)`. -/

structure Doc where
  doc_id : String
  source : String
  content : String
  deriving DecidableEq, Repr

structure SearchRow where
  doc_id : String
  source : String
  content : String
  dense_score : ℚ
  fts_score : ℚ
  final_score : ℚ
  deriving DecidableEq, Repr

/-- The dense_results CTE: all documents ordered by ascending cosine distance
to the query embedding, limited to top_k * 2.  The per-row score column
`1 - (d.embedding <=> query_embedding)` is recovered as `1 - dist d`. -/
def dense_results (docs : List Doc) (dist : Doc → ℚ) (top_k : Nat) : List Doc :=
  (List.insertionSort (fun a b => dist a ≤ dist b) docs).take (top_k * 2)

/-- The fts_results CTE: documents matching the full-text query, ordered by
descending ts_rank, limited to top_k * 2. -/
def fts_results (docs : List Doc) (ftsRank : Doc → ℚ) (ftsMatch : Doc → Bool)
    (top_k : Nat) : List Doc :=
  (List.insertionSort (fun a b => ftsRank b ≤ ftsRank a) (docs.filter ftsMatch)).take
    (top_k * 2)

/-- FULL OUTER JOIN of the two candidate lists ON d.doc_id = f.doc_id:
every matching pair, plus left rows without a match, plus right rows without
a match. -/
def fullOuterJoin (dl fl : List Doc) : List (Option Doc × Option Doc) :=
  dl.flatMap (fun d =>
    match fl.filter (fun f => f.doc_id == d.doc_id) with
    | [] => [(some d, none)]
    | ms => ms.map (fun f => (some d, some f)))
  ++ (fl.filter (fun f => !(dl.any (fun d => d.doc_id == f.doc_id)))).map
      (fun f => (none, some f))

/-- The SELECT list of the combined CTE: COALESCE of the joined columns and
the weighted final score
`COALESCE(d.score, 0) * dense_weight + COALESCE(f.score, 0) * fts_weight`. -/
def coalesceRow (dist ftsRank : Doc → ℚ) (dw fw : ℚ) :
    Option Doc × Option Doc → SearchRow
  | (some d, some f) =>
      ⟨d.doc_id, d.source, d.content, 1 - dist d, ftsRank f,
        (1 - dist d) * dw + ftsRank f * fw⟩
  | (some d, none) =>
      ⟨d.doc_id, d.source, d.content, 1 - dist d, 0,
        (1 - dist d) * dw + 0 * fw⟩
  | (none, some f) =>
      ⟨f.doc_id, f.source, f.content, 0, ftsRank f,
        0 * dw + ftsRank f * fw⟩
  | (none, none) => ⟨"", "", "", 0, 0, 0 * dw + 0 * fw⟩

/-- hybrid_search_2026(query_embedding, query_text, top_k, dense_weight,
fts_weight): the combined CTE ordered by final_score DESC, limited to top_k. -/
def hybrid_search_2026 (docs : List Doc) (dist ftsRank : Doc → ℚ)
    (ftsMatch : Doc → Bool) (top_k : Nat) (dense_weight fts_weight : ℚ) :
    List SearchRow :=
  (List.insertionSort (fun a b => b.final_score ≤ a.final_score)
    ((fullOuterJoin (dense_results docs dist top_k)
        (fts_results docs ftsRank ftsMatch top_k)).map
      (coalesceRow dist ftsRank dense_weight fts_weight))).take top_k

/-- Declared parameter defaults of hybrid_search_2026. -/
def top_k_default : Nat := 10

def dense_weight_default : ℚ := 6/10

def fts_weight_default : ℚ := 4/10

/-- A call of hybrid_search_2026 that omits the weight arguments uses the
declared defaults. -/
def hybrid_search_2026_default (docs : List Doc) (dist ftsRank : Doc → ℚ)
    (ftsMatch : Doc → Bool) (top_k : Nat) : List SearchRow :=
  hybrid_search_2026 docs dist ftsRank ftsMatch top_k
    dense_weight_default fts_weight_default

/-! Supporting lemmas about hybrid_search_2026. -/

lemma mem_of_mem_hybrid_search {docs : List Doc} {dist ftsRank : Doc → ℚ}
    {ftsMatch : Doc → Bool} {top_k : Nat} {dw fw : ℚ} {r : SearchRow}
    (hr : r ∈ hybrid_search_2026 docs dist ftsRank ftsMatch top_k dw fw) :
    r ∈ (fullOuterJoin (dense_results docs dist top_k)
          (fts_results docs ftsRank ftsMatch top_k)).map
        (coalesceRow dist ftsRank dw fw) := by
  have h1 := List.mem_of_mem_take hr
  exact ((List.perm_insertionSort _ _).mem_iff).1 h1

lemma nodup_dense_ids (docs : List Doc) (dist : Doc → ℚ) (top_k : Nat)
    (hnd : (docs.map Doc.doc_id).Nodup) :
    ((dense_results docs dist top_k).map Doc.doc_id).Nodup := by
  have hperm :
      ((List.insertionSort (fun a b => dist a ≤ dist b) docs).map Doc.doc_id).Perm
        (docs.map Doc.doc_id) :=
    (List.perm_insertionSort _ docs).map Doc.doc_id
  have h2 := hperm.symm.nodup hnd
  unfold dense_results
  rw [List.map_take]
  exact (List.take_sublist _ _).nodup h2

lemma nodup_fts_ids (docs : List Doc) (ftsRank : Doc → ℚ) (ftsMatch : Doc → Bool)
    (top_k : Nat) (hnd : (docs.map Doc.doc_id).Nodup) :
    ((fts_results docs ftsRank ftsMatch top_k).map Doc.doc_id).Nodup := by
  have hfil : ((docs.filter ftsMatch).map Doc.doc_id).Nodup :=
    ((List.filter_sublist docs).map Doc.doc_id).nodup hnd
  have hperm :
      ((List.insertionSort (fun a b => ftsRank b ≤ ftsRank a)
          (docs.filter ftsMatch)).map Doc.doc_id).Perm
        ((docs.filter ftsMatch).map Doc.doc_id) :=
    (List.perm_insertionSort _ _).map Doc.doc_id
  have h2 := hperm.symm.nodup hfil
  unfold fts_results
  rw [List.map_take]
  exact (List.take_sublist _ _).nodup h2

lemma mem_fullOuterJoin {dl fl : List Doc} {p : Option Doc × Option Doc}
    (hp : p ∈ fullOuterJoin dl fl) :
    (∃ d ∈ dl, ∃ f ∈ fl, f.doc_id = d.doc_id ∧ p = (some d, some f))
    ∨ (∃ d ∈ dl, (∀ f ∈ fl, f.doc_id ≠ d.doc_id) ∧ p = (some d, none))
    ∨ (∃ f ∈ fl, (∀ d ∈ dl, d.doc_id ≠ f.doc_id) ∧ p = (none, some f)) := by
  unfold fullOuterJoin at hp
  rcases List.mem_append.1 hp with h | h
  · rcases List.mem_flatMap.1 h with ⟨d, hd, hpd⟩
    rcases hms : fl.filter (fun f => f.doc_id == d.doc_id) with _ | ⟨f0, ms'⟩
    · rw [hms] at hpd
      simp only [List.mem_singleton] at hpd
      refine Or.inr (Or.inl ⟨d, hd, ?_, hpd⟩)
      intro f hf hfd
      have hmem : f ∈ fl.filter (fun f => f.doc_id == d.doc_id) :=
        List.mem_filter.2 ⟨hf, by simp [hfd]⟩
      rw [hms] at hmem
      exact absurd hmem (List.not_mem_nil f)
    · rw [hms] at hpd
      rcases List.mem_map.1 hpd with ⟨f, hfmem, rfl⟩
      have hf : f ∈ fl.filter (fun f => f.doc_id == d.doc_id) := hms ▸ hfmem
      have hsp := List.mem_filter.1 hf
      exact Or.inl ⟨d, hd, f, hsp.1, by simpa using hsp.2, rfl⟩
  · rcases List.mem_map.1 h with ⟨f, hfmem, rfl⟩
    have hsp := List.mem_filter.1 hfmem
    refine Or.inr (Or.inr ⟨f, hsp.1, ?_, rfl⟩)
    intro d hd hdf
    have h2 : ∀ d ∈ dl, ¬(d.doc_id = f.doc_id) := by simpa using hsp.2
    exact h2 d hd hdf

/-- C1: every row returned by hybrid_search_2026 carries
final_score = dense_score * dense_weight + fts_score * fts_weight, where
dense_score is 1 minus the cosine distance for documents of the dense
candidate list and 0 otherwise, fts_score is the full-text rank for documents
of the lexical candidate list and 0 otherwise, and every row stems from a
document of at least one of the two candidate lists (full outer join
eligibility). -/
theorem C1_hybrid_search_row_semantics
    (docs : List Doc) (dist ftsRank : Doc → ℚ) (ftsMatch : Doc → Bool)
    (top_k : Nat) (dw fw : ℚ)
    (hnd : (docs.map Doc.doc_id).Nodup) (r : SearchRow)
    (hr : r ∈ hybrid_search_2026 docs dist ftsRank ftsMatch top_k dw fw) :
    r.final_score = r.dense_score * dw + r.fts_score * fw
    ∧ (∀ d ∈ dense_results docs dist top_k, d.doc_id = r.doc_id →
        r.dense_score = 1 - dist d)
    ∧ ((∀ d ∈ dense_results docs dist top_k, d.doc_id ≠ r.doc_id) →
        r.dense_score = 0)
    ∧ (∀ f ∈ fts_results docs ftsRank ftsMatch top_k, f.doc_id = r.doc_id →
        r.fts_score = ftsRank f)
    ∧ ((∀ f ∈ fts_results docs ftsRank ftsMatch top_k, f.doc_id ≠ r.doc_id) →
        r.fts_score = 0)
    ∧ ((∃ d ∈ dense_results docs dist top_k, d.doc_id = r.doc_id)
        ∨ (∃ f ∈ fts_results docs ftsRank ftsMatch top_k, f.doc_id = r.doc_id)) := by
  have hdl := nodup_dense_ids docs dist top_k hnd
  have hfl := nodup_fts_ids docs ftsRank ftsMatch top_k hnd
  have hinjd : ∀ x ∈ dense_results docs dist top_k,
      ∀ y ∈ dense_results docs dist top_k, x.doc_id = y.doc_id → x = y :=
    fun x hx y hy hxy => List.inj_on_of_nodup_map hdl hx hy hxy
  have hinjf : ∀ x ∈ fts_results docs ftsRank ftsMatch top_k,
      ∀ y ∈ fts_results docs ftsRank ftsMatch top_k, x.doc_id = y.doc_id → x = y :=
    fun x hx y hy hxy => List.inj_on_of_nodup_map hfl hx hy hxy
  have hmem := mem_of_mem_hybrid_search hr
  rcases List.mem_map.1 hmem with ⟨p, hp, rfl⟩
  rcases mem_fullOuterJoin hp with ⟨d, hd, f, hf, hfd, rfl⟩ | ⟨d, hd, hno, rfl⟩
    | ⟨f, hf, hno, rfl⟩
  · refine ⟨rfl, ?_, ?_, ?_, ?_, Or.inl ⟨d, hd, rfl⟩⟩
    · intro d' hd' hid
      have : d' = d := hinjd d' hd' d hd hid
      subst this; rfl
    · intro h
      exact absurd rfl (h d hd)
    · intro f' hf' hid
      have : f' = f := hinjf f' hf' f hf (hid.trans hfd.symm)
      subst this; rfl
    · intro h
      exact absurd hfd (h f hf)
  · refine ⟨rfl, ?_, ?_, ?_, ?_, Or.inl ⟨d, hd, rfl⟩⟩
    · intro d' hd' hid
      have : d' = d := hinjd d' hd' d hd hid
      subst this; rfl
    · intro h
      exact absurd rfl (h d hd)
    · intro f' hf' hid
      exact absurd hid (hno f' hf')
    · intro _
      rfl
  · refine ⟨rfl, ?_, ?_, ?_, ?_, Or.inr ⟨f, hf, rfl⟩⟩
    · intro d' hd' hid
      exact absurd hid (hno d' hd')
    · intro _
      rfl
    · intro f' hf' hid
      have : f' = f := hinjf f' hf' f hf hid
      subst this; rfl
    · intro h
      exact absurd rfl (h f hf)

lemma pairwise_desc_insertionSort (l : List SearchRow) :
    List.Pairwise (fun a b => b.final_score ≤ a.final_score)
      (List.insertionSort (fun a b => b.final_score ≤ a.final_score) l) := by
  haveI : IsTotal SearchRow (fun a b => b.final_score ≤ a.final_score) :=
    ⟨fun a b => le_total b.final_score a.final_score⟩
  haveI : IsTrans SearchRow (fun a b => b.final_score ≤ a.final_score) :=
    ⟨fun _ _ _ hab hbc => le_trans hbc hab⟩
  exact List.sorted_insertionSort _ l

/-- C3: hybrid_search_2026 returns at most top_k rows, ordered by descending
final_score. -/
theorem C3_hybrid_search_limit_and_order
    (docs : List Doc) (dist ftsRank : Doc → ℚ) (ftsMatch : Doc → Bool)
    (top_k : Nat) (dw fw : ℚ) (_htop : 0 < top_k) :
    (hybrid_search_2026 docs dist ftsRank ftsMatch top_k dw fw).length ≤ top_k
    ∧ List.Pairwise (fun a b => b.final_score ≤ a.final_score)
        (hybrid_search_2026 docs dist ftsRank ftsMatch top_k dw fw) := by
  constructor
  · exact List.length_take_le _ _
  · exact List.Pairwise.sublist (List.take_sublist _ _) (pairwise_desc_insertionSort _)

/-- C7: the weight parameters of hybrid_search_2026 default to 0.6 and 0.4,
and every call that omits them weights the two score components 0.6/0.4. -/
theorem C7_hybrid_search_default_weights :
    dense_weight_default = 6/10 ∧ fts_weight_default = 4/10
    ∧ ∀ (docs : List Doc) (dist ftsRank : Doc → ℚ) (ftsMatch : Doc → Bool)
        (top_k : Nat) (r : SearchRow),
        r ∈ hybrid_search_2026_default docs dist ftsRank ftsMatch top_k →
        r.final_score = r.dense_score * (6/10) + r.fts_score * (4/10) := by
  refine ⟨rfl, rfl, ?_⟩
  intro docs dist ftsRank ftsMatch top_k r hr
  unfold hybrid_search_2026_default at hr
  have hmem := mem_of_mem_hybrid_search hr
  rcases List.mem_map.1 hmem with ⟨p, hp, rfl⟩
  rcases p with ⟨_ | d, _ | f⟩ <;> rfl

/-- Concrete store instance used by the witnesses below. -/
def docsW : List Doc := [⟨"a", "src_a", "content_a"⟩, ⟨"b", "src_b", "content_b"⟩]

def distW : Doc → ℚ := fun d => if d.doc_id = "a" then 1/4 else 1/2

def ftsRankW : Doc → ℚ := fun d => if d.doc_id = "b" then 3/10 else 0

def ftsMatchW : Doc → Bool := fun d => d.doc_id == "b"

def rowW : SearchRow := ⟨"a", "src_a", "content_a", 3/4, 0, 3/4 * (6/10) + 0 * (4/10)⟩

lemma dense_eval : dense_results docsW distW 1 = docsW := by
  simp [dense_results, docsW, distW, List.insertionSort, List.orderedInsert]
  norm_num

lemma fts_eval : fts_results docsW ftsRankW ftsMatchW 1 = [⟨"b", "src_b", "content_b"⟩] := by
  simp [fts_results, docsW, ftsRankW, ftsMatchW, List.insertionSort, List.orderedInsert,
    List.filter]

lemma foj_eval : fullOuterJoin docsW [⟨"b", "src_b", "content_b"⟩]
    = [(some ⟨"a", "src_a", "content_a"⟩, none),
       (some ⟨"b", "src_b", "content_b"⟩, some ⟨"b", "src_b", "content_b"⟩)] := by
  simp [fullOuterJoin, docsW, List.filter, List.flatMap]

lemma hybrid_eval :
    hybrid_search_2026 docsW distW ftsRankW ftsMatchW 1 (6/10) (4/10) = [rowW] := by
  rw [hybrid_search_2026, dense_eval, fts_eval, foj_eval]
  simp [coalesceRow, distW, ftsRankW, rowW, List.insertionSort, List.orderedInsert]
  norm_num

lemma rowW_mem : rowW ∈ hybrid_search_2026 docsW distW ftsRankW ftsMatchW 1 (6/10) (4/10) := by
  rw [hybrid_eval]
  exact List.mem_singleton_self rowW

theorem C1_hybrid_search_row_semantics_witness :
    rowW.final_score = rowW.dense_score * (6/10) + rowW.fts_score * (4/10)
    ∧ (∀ d ∈ dense_results docsW distW 1, d.doc_id = rowW.doc_id →
        rowW.dense_score = 1 - distW d)
    ∧ ((∀ d ∈ dense_results docsW distW 1, d.doc_id ≠ rowW.doc_id) →
        rowW.dense_score = 0)
    ∧ (∀ f ∈ fts_results docsW ftsRankW ftsMatchW 1, f.doc_id = rowW.doc_id →
        rowW.fts_score = ftsRankW f)
    ∧ ((∀ f ∈ fts_results docsW ftsRankW ftsMatchW 1, f.doc_id ≠ rowW.doc_id) →
        rowW.fts_score = 0)
    ∧ ((∃ d ∈ dense_results docsW distW 1, d.doc_id = rowW.doc_id)
        ∨ (∃ f ∈ fts_results docsW ftsRankW ftsMatchW 1, f.doc_id = rowW.doc_id)) :=
  C1_hybrid_search_row_semantics docsW distW ftsRankW ftsMatchW 1 (6/10) (4/10)
    (by decide) rowW rowW_mem

theorem C3_hybrid_search_limit_and_order_witness :
    (hybrid_search_2026 docsW distW ftsRankW ftsMatchW 1 (6/10) (4/10)).length ≤ 1
    ∧ List.Pairwise (fun a b => b.final_score ≤ a.final_score)
        (hybrid_search_2026 docsW distW ftsRankW ftsMatchW 1 (6/10) (4/10)) :=
  C3_hybrid_search_limit_and_order docsW distW ftsRankW ftsMatchW 1 (6/10) (4/10)
    Nat.one_pos

theorem C7_hybrid_search_default_weights_witness :
    rowW.final_score = rowW.dense_score * (6/10) + rowW.fts_score * (4/10) :=
  C7_hybrid_search_default_weights.2.2 docsW distW ftsRankW ftsMatchW 1 rowW rowW_mem

/-! ### Relational schema, cascade delete and sample data
(src/database/setup.sql: legal_documents_2026, document_chunks_2026,
knowledge_graph_2026 and insert_sample_data_2026) -/

structure DocumentRow where
  doc_id : String
  source : String
  title : String
  content : String
  doc_type : String
  jurisdiction : String
  year : Int
  category : String
  deriving DecidableEq, Repr

structure ChunkRow where
  chunk_id : String
  doc_id : String
  chunk_text : String
  chunk_index : Int
  deriving DecidableEq, Repr

/-- One entry of the JSONB relationships array of knowledge_graph_2026, in
parsed form. -/
structure Rel where
  type : String
  target : String
  weight : ℚ
  deriving DecidableEq, Repr

structure KGEntity where
  entity_id : String
  entity_type : String
  entity_name : String
  relationships : List Rel
  source_doc_id : String
  deriving DecidableEq, Repr

structure DB where
  documents : List DocumentRow
  chunks : List ChunkRow
  entities : List KGEntity
  deriving DecidableEq, Repr

/-- DELETE FROM legal_documents_2026 WHERE doc_id = did, under the foreign
key of document_chunks_2026.doc_id declared ON DELETE CASCADE: the document
row disappears together with exactly the chunk rows referencing it. -/
def deleteDocument (db : DB) (did : String) : DB :=
  ⟨db.documents.filter (fun d => !(d.doc_id == did)),
   db.chunks.filter (fun c => !(c.doc_id == did)),
   db.entities⟩

/-- The two rows the sample loader INSERTs INTO legal_documents_2026. -/
def sample_documents : List DocumentRow :=
  [⟨"constitution_article_19",
    "Constitution of India",
    "Article 19 - Protection of certain rights regarding freedom of speech etc.",
    "Article 19. Protection of certain rights regarding freedom of speech etc.\n\n(1) All citizens shall have the right—\n(a) to freedom of speech and expression;\n(b) to assemble peaceably and without arms;\n(c) to form associations or unions;\n(d) to move freely throughout the territory of India;\n(e) to reside and settle in any part of the territory of India;\n(f) [Omitted]\n(g) to practise any profession, or to carry on any occupation, trade or business.\n\n(2) Nothing in sub-clause (a) of clause (1) shall affect the operation of any existing law, or prevent the State from making any law, in so far as such law imposes reasonable restrictions on the exercise of the right conferred by the said sub-clause in the interests of the sovereignty and integrity of India, the security of the State, friendly relations with foreign States, public order, decency or morality or in relation to contempt of court, defamation or incitement to an offence.",
    "constitution",
    "India",
    1950,
    "fundamental_rights"⟩,
   ⟨"it_act_section_66a",
    "Information Technology Act, 2000 (Amended 2008)",
    "Section 66A - Punishment for sending offensive messages",
    "Section 66A. Punishment for sending offensive messages through communication service, etc.\n\nAny person who sends, by means of a computer resource or a communication device,—\n(a) any information that is grossly offensive or has menacing character; or\n(b) any information which he knows to be false, but for the purpose of causing annoyance, inconvenience, danger, obstruction, insult, injury, criminal intimidation, enmity, hatred or ill will, persistently by making use of such computer resource or a communication device; or\n(c) any electronic mail or electronic mail message for the purpose of causing annoyance or inconvenience or to deceive or to mislead the addressee or recipient about the origin of such messages,\n\nshall be punishable with imprisonment for a term which may extend to three years and with fine.\n\n[NOTE: This section was struck down by the Supreme Court in Shreya Singhal v. Union of India (2015) as unconstitutional]",
    "act",
    "India",
    2008,
    "cyber_law"⟩]

/-- The three rows the sample loader INSERTs INTO knowledge_graph_2026, with
the JSONB relationships arrays in parsed form. -/
def sample_kg_entities : List KGEntity :=
  [⟨"article_19", "article", "Article 19 - Freedom of Speech",
    [⟨"PROTECTS", "freedom_of_speech", 1⟩,
     ⟨"ALLOWS_RESTRICTIONS", "reasonable_restrictions", 8/10⟩,
     ⟨"RELATED_TO", "article_21", 6/10⟩],
    "constitution_article_19"⟩,
   ⟨"freedom_of_speech", "right", "Freedom of Speech and Expression",
    [⟨"GUARANTEED_BY", "article_19", 1⟩,
     ⟨"RESTRICTED_BY", "section_66a", 7/10⟩,
     ⟨"INCLUDES", "internet_speech", 9/10⟩],
    "constitution_article_19"⟩,
   ⟨"section_66a", "restriction", "Section 66A IT Act",
    [⟨"RESTRICTS", "freedom_of_speech", 9/10⟩,
     ⟨"STRUCK_DOWN_BY", "shreya_singhal_case", 1⟩],
    "it_act_section_66a"⟩]

/-- insert_sample_data_2026(): appends the two sample documents and the three
sample knowledge-graph entities to the store. -/
def insert_sample_data_2026 (db : DB) : DB :=
  ⟨db.documents ++ sample_documents, db.chunks, db.entities ++ sample_kg_entities⟩

/-- C5: deleting a document removes that document row and exactly the chunk
rows referencing it, and every other document, every chunk of another
document, and all knowledge-graph entities are untouched. -/
theorem C5_delete_document_cascade_frame (db : DB) (did : String) :
    (∀ d : DocumentRow,
      d ∈ (deleteDocument db did).documents ↔ d ∈ db.documents ∧ d.doc_id ≠ did)
    ∧ (∀ c : ChunkRow,
      c ∈ (deleteDocument db did).chunks ↔ c ∈ db.chunks ∧ c.doc_id ≠ did)
    ∧ (deleteDocument db did).entities = db.entities := by
  refine ⟨?_, ?_, rfl⟩
  · intro d
    simp [deleteDocument, List.mem_filter]
  · intro c
    simp [deleteDocument, List.mem_filter]

/-- C6: the sample loader inserts exactly two documents, with doc_ids
constitution_article_19 and it_act_section_66a and with no document
mentioning Section 302, and exactly three knowledge-graph entities, among
them section_66a carrying a STRUCK_DOWN_BY relationship to
shreya_singhal_case with weight 1.0. -/
theorem C6_sample_data_content (db : DB) :
    (insert_sample_data_2026 db).documents = db.documents ++ sample_documents
    ∧ sample_documents.length = 2
    ∧ sample_documents.map DocumentRow.doc_id
        = ["constitution_article_19", "it_act_section_66a"]
    ∧ (∀ d ∈ sample_documents,
        ¬ List.IsInfix "302".toList d.doc_id.toList
        ∧ ¬ List.IsInfix "302".toList d.title.toList)
    ∧ (insert_sample_data_2026 db).entities = db.entities ++ sample_kg_entities
    ∧ sample_kg_entities.length = 3
    ∧ sample_kg_entities.map KGEntity.entity_id
        = ["article_19", "freedom_of_speech", "section_66a"]
    ∧ ∃ e ∈ sample_kg_entities, e.entity_id = "section_66a"
        ∧ (⟨"STRUCK_DOWN_BY", "shreya_singhal_case", 1⟩ : Rel) ∈ e.relationships :=
  ⟨rfl, rfl, rfl, by decide, rfl, rfl, rfl, by decide⟩

/-! ### Reciprocal Rank Fusion (specification section 4.3)

The pipeline module implementing RRF (listed in the repository README as
src/architecture.py) is not among the provided sources, so the scoring is
modelled from the specification text. -/

/-- Modelled from the spec: the 1-based rank of an item in one ranked list;
none when the list does not contain the item.  (The implementing backend
module src/architecture.py is missing from the provided sources.) -/
def rankOf (x : String) : List String → Option Nat
  | [] => none
  | y :: ys => if y = x then some 1 else (rankOf x ys).map (· + 1)

/-- Modelled from the spec: the contribution of one ranked list to the RRF
score of an item: 1 / (rank_in_list + c) when the list contains the item,
and 0 for a list the item is absent from. -/
def rrf_contrib (c : ℚ) (x : String) (l : List String) : ℚ :=
  match rankOf x l with
  | some r => 1 / ((r : ℚ) + c)
  | none => 0

/-- Modelled from the spec: fused_score of an item is the sum over the input
ranked lists of the reciprocal-rank contributions. -/
def fused_score (lists : List (List String)) (c : ℚ) (x : String) : ℚ :=
  (lists.map (rrf_contrib c x)).sum

lemma rankOf_of_mem {x : String} : ∀ {l : List String}, x ∈ l →
    ∃ r, rankOf x l = some r ∧ 1 ≤ r := by
  intro l hx
  induction l with
  | nil => exact absurd hx (List.not_mem_nil x)
  | cons y ys ih =>
    by_cases hyx : y = x
    · exact ⟨1, by simp [rankOf, hyx], le_refl 1⟩
    · have hmem : x ∈ ys := by
        rcases List.mem_cons.1 hx with h | h
        · exact absurd h.symm hyx
        · exact h
      rcases ih hmem with ⟨r, hr, h1⟩
      exact ⟨r + 1, by simp [rankOf, hyx, hr], le_trans h1 (Nat.le_succ r)⟩

lemma rankOf_of_not_mem {x : String} : ∀ {l : List String}, x ∉ l →
    rankOf x l = none := by
  intro l hx
  induction l with
  | nil => rfl
  | cons y ys ih =>
    have hyx : ¬ y = x := fun h => hx (h ▸ List.mem_cons_self y ys)
    have hys : x ∉ ys := fun h => hx (List.mem_cons_of_mem y h)
    simp [rankOf, hyx, ih hys]

lemma rrf_contrib_pos {c : ℚ} (hc : 0 ≤ c) {x : String} {l : List String}
    (hx : x ∈ l) : 0 < rrf_contrib c x l := by
  rcases rankOf_of_mem hx with ⟨r, hr, h1⟩
  rw [rrf_contrib, hr]
  apply div_pos one_pos
  have : (1 : ℚ) ≤ (r : ℚ) := by exact_mod_cast h1
  linarith

lemma rrf_contrib_of_not_mem (c : ℚ) {x : String} {l : List String}
    (hx : x ∉ l) : rrf_contrib c x l = 0 := by
  rw [rrf_contrib, rankOf_of_not_mem hx]

lemma rrf_contrib_nonneg {c : ℚ} (hc : 0 ≤ c) (x : String) (l : List String) :
    0 ≤ rrf_contrib c x l := by
  by_cases hx : x ∈ l
  · exact le_of_lt (rrf_contrib_pos hc hx)
  · rw [rrf_contrib_of_not_mem c hx]

lemma fused_score_eq_sum_range (lists : List (List String)) (c : ℚ) (x : String) :
    fused_score lists c x
      = ∑ i ∈ Finset.range lists.length, rrf_contrib c x (lists.getD i []) := by
  induction lists with
  | nil => simp [fused_score]
  | cons l ls ih =>
    rw [fused_score, List.map_cons, List.sum_cons, List.length_cons,
      Finset.sum_range_succ']
    simp only [List.getD_cons_succ, List.getD_cons_zero]
    rw [← fused_score, ih, add_comm]

/-- C2 counterexample: the claimed strict monotonicity in list coverage fails
for an arbitrary fixed constant.  With c = -2, the item x sits at rank 1 of
both lists of [[x], [x]] yet its fused score -2 is smaller, not larger, than
the score -1 it gets from the single-list configuration [[x], []] (same rank
in the surviving list); and with a single input list the two configurations
coincide, so the comparison cannot be strict. -/
theorem C2_rrf_coverage_monotonicity_counterexample :
    (∀ l ∈ [["x"], ["x"]], "x" ∈ l)
    ∧ [["x"], []].getD 0 [] = [["x"], ["x"]].getD 0 []
    ∧ "x" ∉ [["x"], []].getD 1 []
    ∧ ¬ (fused_score [["x"], []] (-2) "x" < fused_score [["x"], ["x"]] (-2) "x")
    ∧ ¬ (fused_score [["x"]] 60 "x" < fused_score [["x"]] 60 "x") := by
  refine ⟨by decide, rfl, by decide, ?_, lt_irrefl _⟩
  norm_num [fused_score, rrf_contrib, rankOf]

/-- C2 amended: for at least two input ranked lists and a nonnegative
constant c, an item present in every list has a strictly greater fused_score
than it would have were it present in only one of the lists with the same
rank there (the other lists dropping it). -/
theorem C2_rrf_coverage_monotonicity
    (LS LS' : List (List String)) (c : ℚ) (x : String) (j : Nat)
    (hc : 0 ≤ c) (h2 : 2 ≤ LS.length) (hlen : LS'.length = LS.length)
    (hall : ∀ l ∈ LS, x ∈ l)
    (hj : j < LS.length) (hkeep : LS'.getD j [] = LS.getD j [])
    (hout : ∀ i, i < LS.length → i ≠ j → x ∉ LS'.getD i []) :
    fused_score LS' c x < fused_score LS c x := by
  rw [fused_score_eq_sum_range, fused_score_eq_sum_range, hlen]
  apply Finset.sum_lt_sum
  · intro i hi
    rcases eq_or_ne i j with rfl | hij
    · rw [hkeep]
    · rw [rrf_contrib_of_not_mem c (hout i (Finset.mem_range.1 hi) hij)]
      exact rrf_contrib_nonneg hc x _
  · have hi0lt : (if j = 0 then 1 else 0) < LS.length := by
      split <;> omega
    have hi0ne : (if j = 0 then 1 else 0) ≠ j := by
      split <;> omega
    refine ⟨if j = 0 then 1 else 0, Finset.mem_range.2 hi0lt, ?_⟩
    rw [rrf_contrib_of_not_mem c (hout _ hi0lt hi0ne)]
    apply rrf_contrib_pos hc
    have hget : LS.getD (if j = 0 then 1 else 0) [] ∈ LS := by
      rw [List.getD_eq_getElem LS [] hi0lt]
      exact List.getElem_mem hi0lt
    exact hall _ hget

theorem C2_rrf_coverage_monotonicity_witness :
    fused_score [["x"], []] 60 "x" < fused_score [["x"], ["x"]] 60 "x" :=
  C2_rrf_coverage_monotonicity [["x"], ["x"]] [["x"], []] 60 "x" 0
    (by norm_num) (by decide) (by decide) (by decide) (by decide) rfl
    (by decide)

/-! ### Login form (src/frontend/src/pages/Login.jsx)

The client-side validators and the submission handler.  The JavaScript
whitespace class of the email regular expression is transcribed codepoint by
codepoint. -/

/-- The character class matched by a JavaScript regular expression backslash-s. -/
def jsWhitespace (ch : Char) : Bool :=
  ch == '\t' || ch == '\n' || ch.val == 11 || ch.val == 12 || ch == '\r'
  || ch == ' ' || ch.val == 0xa0 || ch.val == 0x1680
  || (0x2000 ≤ ch.val && ch.val ≤ 0x200a)
  || ch.val == 0x2028 || ch.val == 0x2029 || ch.val == 0x202f
  || ch.val == 0x205f || ch.val == 0x3000 || ch.val == 0xfeff

/-- A character admissible in the bracket class of the email regular
expression: anything except whitespace and the at sign. -/
def isEmailChar (ch : Char) : Bool :=
  !jsWhitespace ch && !(ch == '@')

/-- Test of the Login.jsx email pattern: one nonempty run of admissible
characters, one at sign, then a nonempty run, a dot and another nonempty run
of admissible characters up to the end of the string. -/
def emailRegexTest (s : String) : Bool :=
  let cs := s.toList
  let lp := cs.takeWhile (fun ch => !(ch == '@'))
  let dm := (cs.dropWhile (fun ch => !(ch == '@'))).drop 1
  (cs.count '@' == 1)
  && (!lp.isEmpty) && lp.all isEmailChar
  && (!dm.isEmpty) && dm.all isEmailChar
  && (List.range dm.length).any (fun i =>
        decide (1 ≤ i) && decide (i + 2 ≤ dm.length) && (dm.getD i ' ' == '.'))

/-- validateEmail of Login.jsx: returns the error message, empty on success. -/
def validateEmail (email : String) : String :=
  if email = "" then "Email is required"
  else if !(emailRegexTest email) then "Please enter a valid email"
  else ""

/-- validatePassword of Login.jsx: returns the error message, empty on
success. -/
def validatePassword (password : String) : String :=
  if password = "" then "Password is required"
  else if password.length < 6 then "Password must be at least 6 characters"
  else ""

/-- Observable outcome of one login submission: whether it succeeded, the
localStorage writes, the client-side navigation target, and the number of
network requests issued. -/
structure LoginOutcome where
  succeeded : Bool
  isAuthenticated : Option String
  userEmail : Option String
  navigatedTo : Option String
  networkRequests : Nat
  deriving DecidableEq, Repr

namespace Login

/-- handleSubmit of Login.jsx: runs both validators; on any error it stops
with a toast; otherwise (after a simulated one-second delay and with no
network call at all) it sets localStorage isAuthenticated to "true", stores
the email and navigates to /chat. -/
def handleSubmit (email password : String) : LoginOutcome :=
  let emailError := validateEmail email
  let passwordError := validatePassword password
  if emailError ≠ "" ∨ passwordError ≠ "" then
    ⟨false, none, none, none, 0⟩
  else
    ⟨true, some "true", some email, some "/chat", 0⟩

end Login

lemma validateEmail_eq_nil {e : String} (he : emailRegexTest e = true) :
    validateEmail e = "" := by
  have hne : e ≠ "" := by
    intro h
    subst h
    have : emailRegexTest "" = false := by decide
    rw [this] at he
    exact Bool.false_ne_true he
  rw [validateEmail, if_neg hne, he]
  simp

lemma validatePassword_eq_nil {p : String} (hp : 6 ≤ p.length) :
    validatePassword p = "" := by
  have hne : p ≠ "" := by
    intro h
    subst h
    have h0 : ("" : String).length = 0 := rfl
    omega
  rw [validatePassword, if_neg hne, if_neg (by omega)]

/-- C8: login success is independent of the credential values.  Any two
submissions whose email passes the client regular expression and whose
password has at least six characters produce the success outcome: the
isAuthenticated flag is set to "true", the email is stored, the client
navigates to /chat, and no network request is issued, so no locally valid
submission is ever rejected. -/
theorem C8_login_accepts_all_valid_credentials
    (e₁ p₁ e₂ p₂ : String)
    (he₁ : emailRegexTest e₁ = true) (hp₁ : 6 ≤ p₁.length)
    (he₂ : emailRegexTest e₂ = true) (hp₂ : 6 ≤ p₂.length) :
    Login.handleSubmit e₁ p₁ = ⟨true, some "true", some e₁, some "/chat", 0⟩
    ∧ Login.handleSubmit e₂ p₂ = ⟨true, some "true", some e₂, some "/chat", 0⟩
    ∧ (Login.handleSubmit e₁ p₁).succeeded = (Login.handleSubmit e₂ p₂).succeeded
    ∧ (Login.handleSubmit e₁ p₁).networkRequests = 0 := by
  have h₁ : Login.handleSubmit e₁ p₁ = ⟨true, some "true", some e₁, some "/chat", 0⟩ := by
    simp [Login.handleSubmit, validateEmail_eq_nil he₁, validatePassword_eq_nil hp₁]
  have h₂ : Login.handleSubmit e₂ p₂ = ⟨true, some "true", some e₂, some "/chat", 0⟩ := by
    simp [Login.handleSubmit, validateEmail_eq_nil he₂, validatePassword_eq_nil hp₂]
  refine ⟨h₁, h₂, ?_, ?_⟩
  · rw [h₁, h₂]
  · rw [h₁]

theorem C8_login_accepts_all_valid_credentials_witness :
    Login.handleSubmit "alice@example.com" "hunter42"
        = ⟨true, some "true", some "alice@example.com", some "/chat", 0⟩
    ∧ Login.handleSubmit "bob@test.org" "password"
        = ⟨true, some "true", some "bob@test.org", some "/chat", 0⟩
    ∧ (Login.handleSubmit "alice@example.com" "hunter42").succeeded
        = (Login.handleSubmit "bob@test.org" "password").succeeded
    ∧ (Login.handleSubmit "alice@example.com" "hunter42").networkRequests = 0 :=
  C8_login_accepts_all_valid_credentials "alice@example.com" "hunter42"
    "bob@test.org" "password" (by decide) (by decide) (by decide) (by decide)

/-! ### Chat query request (src/frontend/src/pages/Chat.jsx) -/

/-- API_BASE of Chat.jsx: the VITE_API_URL environment variable when set,
the local default otherwise. -/
def apiBase (viteApiUrl : Option String) : String :=
  viteApiUrl.getD "http://127.0.0.1:8002"

/-- API_URL of Chat.jsx. -/
def apiUrl (viteApiUrl : Option String) : String :=
  apiBase viteApiUrl ++ "/api/v1/query/legal"

/-- The JSON body the chat client serialises for a query: exactly one field,
query; none of the optional boolean fields is ever included. -/
structure ChatQueryBody where
  query : String
  deriving DecidableEq, Repr

structure HttpRequest where
  url : String
  method : String
  body : ChatQueryBody
  deriving DecidableEq, Repr

namespace Chat

/-- The fetch issued by handleSubmit of Chat.jsx for a submitted message. -/
def queryRequest (viteApiUrl : Option String) (userMessage : String) : HttpRequest :=
  ⟨apiUrl viteApiUrl, "POST", ⟨userMessage⟩⟩

end Chat

/-- C4 counterexample: the chat client does not address POST /query.  Its
request for a concrete submitted message is a POST whose JSON body carries
exactly the query field, but the URL is the API base extended by
/api/v1/query/legal, not by /query as claimed. -/
theorem C4_chat_query_endpoint_counterexample :
    (Chat.queryRequest none "What is Article 21?").method = "POST"
    ∧ (Chat.queryRequest none "What is Article 21?").body
        = ⟨"What is Article 21?"⟩
    ∧ (Chat.queryRequest none "What is Article 21?").url
        ≠ apiBase none ++ "/query"
    ∧ (Chat.queryRequest none "What is Article 21?").url
        = apiBase none ++ "/api/v1/query/legal" :=
  ⟨rfl, rfl, by decide, rfl⟩

/-- C4 amended: every query request the chat client sends is a POST to the
API base extended by /api/v1/query/legal (not /query) whose JSON body
contains exactly the field query holding the submitted message; the optional
boolean fields of the documented body schema are never sent, which the
schema permits. -/
theorem C4_chat_query_request_shape (viteApiUrl : Option String) (msg : String) :
    Chat.queryRequest viteApiUrl msg
      = ⟨apiBase viteApiUrl ++ "/api/v1/query/legal", "POST", ⟨msg⟩⟩ :=
  rfl

/-! ### IEEE-754 binary64 rounding

src/frontend/LegalQATestSuite.js computes its keyword score with JavaScript
numbers, i.e. IEEE-754 binary64 values.  The two inexact operations of that
computation, the division and the multiplication by 100, are modelled by
correct rounding over the rationals: 53-bit significand, round to nearest,
ties to even.  No value of the computation approaches the exponent range, so
overflow and subnormals need no model. -/

/-- Round a rational to an integer, to nearest with ties to even. -/
def roundEven (x : ℚ) : ℤ :=
  if x - ⌊x⌋ < 1/2 then ⌊x⌋
  else if 1/2 < x - ⌊x⌋ then ⌊x⌋ + 1
  else if Even ⌊x⌋ then ⌊x⌋ else ⌊x⌋ + 1

/-- Round a rational to the nearest IEEE-754 binary64 value: scale into the
53-bit significand range by the binade exponent, round to nearest integer
with ties to even, and scale back. -/
def fl (q : ℚ) : ℚ :=
  if q = 0 then 0
  else if 0 < q then
    (roundEven (q * 2 ^ ((52:ℤ) - Int.log 2 q)) : ℚ) * 2 ^ (Int.log 2 q - 52)
  else
    -((roundEven (-q * 2 ^ ((52:ℤ) - Int.log 2 (-q))) : ℚ) * 2 ^ (Int.log 2 (-q) - 52))

/-- Math.round of JavaScript on a finite value: the closest integer, ties
toward positive infinity. -/
def mathRound (x : ℚ) : ℤ := ⌊x + 1/2⌋

lemma Int_log_eq_of {r : ℚ} {e : ℤ} (hr : 0 < r) (h1 : (2:ℚ)^e ≤ r)
    (h2 : r < (2:ℚ)^(e+1)) : Int.log 2 r = e := by
  have hb : 1 < (2:ℕ) := by norm_num
  have ha := (Int.zpow_le_iff_le_log hb hr).1 (by exact_mod_cast h1)
  have hb2 := (Int.lt_zpow_iff_log_lt hb hr).1 (by exact_mod_cast h2)
  omega

lemma roundEven_le (x : ℚ) : (roundEven x : ℚ) ≤ x + 1/2 := by
  have h1 := Int.floor_le x
  have h2 := Int.lt_floor_add_one x
  rw [roundEven]
  by_cases ha : x - ⌊x⌋ < 1/2
  · rw [if_pos ha]; linarith
  · rw [if_neg ha]
    by_cases hb : 1/2 < x - ⌊x⌋
    · rw [if_pos hb]; push_cast; linarith
    · rw [if_neg hb]
      push_neg at ha hb
      by_cases hc : Even ⌊x⌋
      · rw [if_pos hc]; linarith
      · rw [if_neg hc]; push_cast; linarith

lemma le_roundEven (x : ℚ) : x - 1/2 ≤ (roundEven x : ℚ) := by
  have h1 := Int.floor_le x
  have h2 := Int.lt_floor_add_one x
  rw [roundEven]
  by_cases ha : x - ⌊x⌋ < 1/2
  · rw [if_pos ha]; linarith
  · rw [if_neg ha]
    by_cases hb : 1/2 < x - ⌊x⌋
    · rw [if_pos hb]; push_cast; linarith
    · rw [if_neg hb]
      push_neg at ha hb
      by_cases hc : Even ⌊x⌋
      · rw [if_pos hc]; linarith
      · rw [if_neg hc]; push_cast; linarith

lemma fl_zero : fl 0 = 0 := by rw [fl, if_pos rfl]

lemma fl_nonneg {q : ℚ} (hq : 0 ≤ q) : 0 ≤ fl q := by
  rcases eq_or_lt_of_le hq with h | h
  · rw [fl, if_pos h.symm]
  · rw [fl, if_neg (ne_of_gt h), if_pos h]
    have hx : 0 < q * (2:ℚ) ^ ((52:ℤ) - Int.log 2 q) :=
      mul_pos h (zpow_pos (by norm_num) _)
    have hl := le_roundEven (q * (2:ℚ) ^ ((52:ℤ) - Int.log 2 q))
    have hz : (0:ℤ) ≤ roundEven (q * (2:ℚ) ^ ((52:ℤ) - Int.log 2 q)) := by
      by_contra hneg
      push_neg at hneg
      have h5 : roundEven (q * (2:ℚ) ^ ((52:ℤ) - Int.log 2 q)) ≤ -1 := by omega
      have h6 : ((roundEven (q * (2:ℚ) ^ ((52:ℤ) - Int.log 2 q)) : ℤ) : ℚ) ≤ -1 := by
        exact_mod_cast h5
      linarith
    have hzq : (0:ℚ) ≤ (roundEven (q * (2:ℚ) ^ ((52:ℤ) - Int.log 2 q)) : ℚ) := by
      exact_mod_cast hz
    exact mul_nonneg hzq (le_of_lt (zpow_pos (by norm_num) _))

lemma fl_le_add {q : ℚ} (hq : 0 < q) : fl q ≤ q + 2 ^ (Int.log 2 q - 53) := by
  rw [fl, if_neg (ne_of_gt hq), if_pos hq]
  have h := roundEven_le (q * 2 ^ ((52:ℤ) - Int.log 2 q))
  have h2 : (0:ℚ) < (2:ℚ) ^ (Int.log 2 q - 52) := zpow_pos (by norm_num) _
  have h3 : (2:ℚ) ^ ((52:ℤ) - Int.log 2 q) * (2:ℚ) ^ (Int.log 2 q - 52) = 1 := by
    rw [← zpow_add₀ (by norm_num : (2:ℚ) ≠ 0)]
    norm_num
  have h4 : (1/2 : ℚ) * (2:ℚ) ^ (Int.log 2 q - 52) = 2 ^ (Int.log 2 q - 53) := by
    rw [show Int.log 2 q - 53 = (Int.log 2 q - 52) + (-1) by ring,
      zpow_add₀ (by norm_num : (2:ℚ) ≠ 0), zpow_neg_one]
    ring
  calc (roundEven (q * 2 ^ ((52:ℤ) - Int.log 2 q)) : ℚ) * 2 ^ (Int.log 2 q - 52)
      ≤ (q * 2 ^ ((52:ℤ) - Int.log 2 q) + 1/2) * 2 ^ (Int.log 2 q - 52) :=
        mul_le_mul_of_nonneg_right h (le_of_lt h2)
    _ = q * ((2:ℚ) ^ ((52:ℤ) - Int.log 2 q) * 2 ^ (Int.log 2 q - 52))
        + (1/2) * 2 ^ (Int.log 2 q - 52) := by ring
    _ = q + 2 ^ (Int.log 2 q - 53) := by rw [h3, h4, mul_one]

lemma two_zpow_mono {e f : ℤ} (h : e ≤ f) : (2:ℚ) ^ e ≤ (2:ℚ) ^ f :=
  zpow_le_zpow_right₀ (by norm_num) h

lemma log_le_of_lt {r : ℚ} (hr : 0 < r) {e : ℤ} (h : r < (2:ℚ)^e) :
    Int.log 2 r ≤ e - 1 := by
  have hb : 1 < (2:ℕ) := by norm_num
  have := (Int.lt_zpow_iff_log_lt hb hr).1 (by exact_mod_cast h)
  omega

/-- The double-rounded keyword score of m matches out of n keywords lies in
[0, 100]. -/
lemma score_bounds {m n : ℕ} (hn : 1 ≤ n) (hmn : m ≤ n) :
    0 ≤ mathRound (fl (fl ((m:ℚ)/(n:ℚ)) * 100))
    ∧ mathRound (fl (fl ((m:ℚ)/(n:ℚ)) * 100)) ≤ 100 := by
  have hn0 : (0:ℚ) < (n:ℚ) := by exact_mod_cast hn
  have hq0 : (0:ℚ) ≤ (m:ℚ)/(n:ℚ) := div_nonneg (by positivity) (le_of_lt hn0)
  have hq1 : (m:ℚ)/(n:ℚ) ≤ 1 := by
    rw [div_le_one hn0]
    exact_mod_cast hmn
  have hx0 : 0 ≤ fl ((m:ℚ)/(n:ℚ)) := fl_nonneg hq0
  have ht53 : (2:ℚ)^(-53:ℤ) ≤ (2:ℚ)^(-10:ℤ) := two_zpow_mono (by norm_num)
  have ht10 : (2:ℚ)^(-10:ℤ) = 1/1024 := by norm_num
  have hx1 : fl ((m:ℚ)/(n:ℚ)) ≤ 1 + (2:ℚ)^(-53:ℤ) := by
    rcases eq_or_lt_of_le hq0 with h | h
    · rw [← h, fl_zero]
      positivity
    · have hlog : Int.log 2 ((m:ℚ)/(n:ℚ)) ≤ 0 := by
        have h2 := log_le_of_lt h (show (m:ℚ)/(n:ℚ) < (2:ℚ)^(1:ℤ) by
          rw [zpow_one]; linarith)
        omega
      have h3 := fl_le_add h
      have h4 : (2:ℚ)^(Int.log 2 ((m:ℚ)/(n:ℚ)) - 53) ≤ (2:ℚ)^(-53:ℤ) :=
        two_zpow_mono (by omega)
      linarith
  have hz0 : (0:ℚ) ≤ fl ((m:ℚ)/(n:ℚ)) * 100 := by positivity
  have hz1 : fl ((m:ℚ)/(n:ℚ)) * 100 ≤ 100 + 100 * (2:ℚ)^(-53:ℤ) := by nlinarith
  have hy0 : 0 ≤ fl (fl ((m:ℚ)/(n:ℚ)) * 100) := fl_nonneg hz0
  have hy1 : fl (fl ((m:ℚ)/(n:ℚ)) * 100) < 100 + 1/2 := by
    rcases eq_or_lt_of_le hz0 with h | h
    · rw [← h, fl_zero]
      norm_num
    · have hlz : Int.log 2 (fl ((m:ℚ)/(n:ℚ)) * 100) ≤ 6 := by
        have h2 := log_le_of_lt h (show fl ((m:ℚ)/(n:ℚ)) * 100 < (2:ℚ)^(7:ℤ) by
          have h128 : ((2:ℚ)^(7:ℤ)) = 128 := by norm_num
          rw [h128]
          linarith)
        omega
      have h3 := fl_le_add h
      have h4 : (2:ℚ)^(Int.log 2 (fl ((m:ℚ)/(n:ℚ)) * 100) - 53) ≤ (2:ℚ)^(-47:ℤ) :=
        two_zpow_mono (by omega)
      have ht47 : (2:ℚ)^(-47:ℤ) ≤ (2:ℚ)^(-10:ℤ) := two_zpow_mono (by norm_num)
      linarith
  constructor
  · rw [mathRound]
    apply Int.le_floor.2
    push_cast
    linarith
  · rw [mathRound]
    have h5 : ⌊fl (fl ((m:ℚ)/(n:ℚ)) * 100) + 1/2⌋ < 101 := by
      apply Int.floor_lt.2
      push_cast
      linarith
    omega

/-! ### evaluateResponse (src/frontend/LegalQATestSuite.js) -/

structure EvalResult where
  score : ℤ
  matchedKeywords : List String
  missedKeywords : List String
  quality : String
  deriving DecidableEq, Repr

/-- toLowerCase of JavaScript, modelled characterwise (the strings involved
are ASCII). -/
def jsToLower (s : String) : String := ⟨s.data.map Char.toLower⟩

/-- The test responseLower.includes(keyword.toLowerCase()): case-insensitive
substring containment. -/
def containsKeyword (responseLower : String) (keyword : String) : Bool :=
  decide (List.IsInfix (jsToLower keyword).toList responseLower.toList)

/-- evaluateResponse(response, expectedKeywords) of LegalQATestSuite.js.
The score (matchedKeywords.length / expectedKeywords.length) * 100 is a
JavaScript double computation: both the division and the multiplication
round, hence the two applications of fl. -/
def evaluateResponse (response : String) (expectedKeywords : List String) :
    EvalResult :=
  let responseLower := jsToLower response
  let matchedKeywords :=
    expectedKeywords.filter (fun k => containsKeyword responseLower k)
  let score : ℚ :=
    fl (fl ((matchedKeywords.length : ℚ) / (expectedKeywords.length : ℚ)) * 100)
  ⟨mathRound score,
   matchedKeywords,
   expectedKeywords.filter (fun k => !(matchedKeywords.contains k)),
   if 80 ≤ score then "excellent"
   else if 60 ≤ score then "good"
   else if 40 ≤ score then "average"
   else "poor"⟩

lemma evaluateResponse_partition (response : String) (keywords : List String) :
    ((evaluateResponse response keywords).matchedKeywords
      ++ (evaluateResponse response keywords).missedKeywords).Perm keywords := by
  have hmiss :
      keywords.filter (fun k =>
        !((keywords.filter (fun k => containsKeyword (jsToLower response) k)).contains k))
      = keywords.filter (fun k => !(containsKeyword (jsToLower response) k)) := by
    apply List.filter_congr
    intro k hk
    have hcc : ((keywords.filter (fun k => containsKeyword (jsToLower response) k)).contains k)
        = containsKeyword (jsToLower response) k := by
      by_cases h : containsKeyword (jsToLower response) k = true
      · have hmem : k ∈ keywords.filter (fun k => containsKeyword (jsToLower response) k) :=
          List.mem_filter.2 ⟨hk, h⟩
        rw [h]
        exact List.elem_iff.2 hmem
      · have h' : containsKeyword (jsToLower response) k = false :=
          Bool.eq_false_iff.2 h
        rw [h']
        cases hc2 : (keywords.filter (fun k => containsKeyword (jsToLower response) k)).contains k
        · rfl
        · have hmem : k ∈ keywords.filter (fun k => containsKeyword (jsToLower response) k) :=
            List.elem_iff.1 hc2
          have h3 := (List.mem_filter.1 hmem).2
          rw [h'] at h3
          exact absurd h3 (Bool.false_ne_true)
    rw [hcc]
  show ((keywords.filter (fun k => containsKeyword (jsToLower response) k))
      ++ keywords.filter (fun k =>
        !((keywords.filter (fun k => containsKeyword (jsToLower response) k)).contains k))).Perm
      keywords
  rw [hmiss]
  exact List.filter_append_perm _ keywords

/-- C9 amended: the matched keywords are exactly those contained
case-insensitively in the response; matched and missed keywords partition
the expected list; the score lies in [0, 100]; and the score is
Math.round of the DOUBLE-PRECISION evaluation of (m / n) * 100 — which can
differ by one from the exact round(100 * m / n) the claim states. -/
theorem C9_evaluate_response_score (response : String) (keywords : List String)
    (hne : keywords ≠ []) :
    (evaluateResponse response keywords).matchedKeywords
      = keywords.filter (fun k =>
          decide (List.IsInfix (jsToLower k).toList (jsToLower response).toList))
    ∧ (evaluateResponse response keywords).score
      = mathRound (fl (fl
          (((evaluateResponse response keywords).matchedKeywords.length : ℚ)
            / (keywords.length : ℚ)) * 100))
    ∧ ((evaluateResponse response keywords).matchedKeywords
        ++ (evaluateResponse response keywords).missedKeywords).Perm keywords
    ∧ 0 ≤ (evaluateResponse response keywords).score
    ∧ (evaluateResponse response keywords).score ≤ 100 := by
  have hn : 1 ≤ keywords.length := List.length_pos.2 hne
  have hmn : (keywords.filter (fun k => containsKeyword (jsToLower response) k)).length
      ≤ keywords.length := List.length_filter_le _ _
  have hb := score_bounds hn hmn
  exact ⟨rfl, rfl, evaluateResponse_partition response keywords, hb.1, hb.2⟩

/-- The 40 expected keywords of the C9 counterexample. -/
def kw40 : List String :=
  ["k00", "k01", "k02", "k03", "k04", "k05", "k06", "k07", "k08", "k09",
   "k10", "k11", "k12", "k13", "k14", "k15", "k16", "k17", "k18", "k19",
   "k20", "k21", "k22", "k23", "k24", "k25", "k26", "k27", "k28", "k29",
   "k30", "k31", "k32", "k33", "k34", "k35", "k36", "k37", "k38", "k39"]

/-- A response containing exactly the first 23 of the 40 keywords. -/
def resp23 : String :=
  "k00 k01 k02 k03 k04 k05 k06 k07 k08 k09 k10 k11 k12 k13 k14 k15 k16 k17 k18 k19 k20 k21 k22"

lemma log_frac_2340 : Int.log 2 ((23:ℚ)/40) = -1 := by
  apply Int_log_eq_of (by norm_num) <;> norm_num

lemma fl_frac_2340 : fl ((23:ℚ)/40) = 2589569785738035/4503599627370496 := by
  rw [fl, if_neg (by norm_num), if_pos (by norm_num), log_frac_2340, roundEven]
  norm_num

lemma log_prod_2340 :
    Int.log 2 ((2589569785738035:ℚ)/4503599627370496 * 100) = 5 := by
  apply Int_log_eq_of (by norm_num) <;> norm_num

lemma fl_prod_2340 : fl ((2589569785738035:ℚ)/4503599627370496 * 100)
    = 8092405580431359/140737488355328 := by
  rw [fl, if_neg (by norm_num), if_pos (by norm_num), log_prod_2340, roundEven]
  norm_num

lemma matched23 :
    (kw40.filter (fun k => containsKeyword (jsToLower resp23) k)).length = 23 := by
  decide

/-- C9 counterexample: for 40 expected keywords of which a response matches
exactly 23, the code returns score 57, because the double-precision value of
(23 / 40) * 100 is 57.49999999999999289, while the exact
round(100 * 23 / 40) = round(57.5) the claim states is 58. -/
theorem C9_evaluate_response_score_counterexample :
    kw40.length = 40
    ∧ (evaluateResponse resp23 kw40).matchedKeywords.length = 23
    ∧ (evaluateResponse resp23 kw40).score = 57
    ∧ mathRound (100 * (23:ℚ) / 40) = 58 := by
  refine ⟨rfl, matched23, ?_, by rw [mathRound]; norm_num⟩
  show mathRound (fl (fl
      (((kw40.filter (fun k => containsKeyword (jsToLower resp23) k)).length : ℚ)
        / ((kw40.length : ℕ) : ℚ)) * 100)) = 57
  rw [matched23, show kw40.length = 40 from rfl]
  push_cast
  rw [fl_frac_2340, fl_prod_2340, mathRound]
  norm_num

theorem C9_evaluate_response_score_witness :
    (evaluateResponse "equality before the law" ["equality", "law", "liberty"]).matchedKeywords
      = ["equality", "law", "liberty"].filter (fun k =>
          decide (List.IsInfix (jsToLower k).toList (jsToLower "equality before the law").toList))
    ∧ (evaluateResponse "equality before the law" ["equality", "law", "liberty"]).score
      = mathRound (fl (fl
          (((evaluateResponse "equality before the law"
              ["equality", "law", "liberty"]).matchedKeywords.length : ℚ) / (3:ℚ)) * 100))
    ∧ ((evaluateResponse "equality before the law" ["equality", "law", "liberty"]).matchedKeywords
        ++ (evaluateResponse "equality before the law"
            ["equality", "law", "liberty"]).missedKeywords).Perm
        ["equality", "law", "liberty"]
    ∧ 0 ≤ (evaluateResponse "equality before the law" ["equality", "law", "liberty"]).score
    ∧ (evaluateResponse "equality before the law" ["equality", "law", "liberty"]).score ≤ 100 :=
  C9_evaluate_response_score "equality before the law" ["equality", "law", "liberty"]
    (by decide)

/-! ### Question bank and generator (src/frontend/LegalQATestSuite.js) -/

structure QBEntry where
  q : String
  difficulty : String
  expectedKeywords : List String
  deriving DecidableEq, Repr

structure Question where
  id : Nat
  category : String
  q : String
  difficulty : String
  expectedKeywords : List String
  deriving DecidableEq, Repr

/-- The hand-written question bank of LegalQATestSuite.js: ten categories, 130 entries. -/
def questionBank : List (String × List QBEntry) :=
  [("constitutional_articles",
    [⟨"What is Article 14?", "easy", ["equality", "law", "discrimination"]⟩,
     ⟨"Explain Article 21 in detail", "medium", ["life", "liberty", "procedure", "law"]⟩,
     ⟨"What are the limitations of Article 19?", "hard", ["reasonable restrictions", "public order", "sovereignty"]⟩,
     ⟨"What is Article 32?", "easy", ["constitutional remedies", "writs", "fundamental rights"]⟩,
     ⟨"Difference between Article 14 and Article 15", "medium", ["equality", "discrimination", "grounds"]⟩,
     ⟨"What does Article 13 say?", "easy", ["laws inconsistent", "fundamental rights", "void"]⟩,
     ⟨"Explain Article 19(1)(a)", "medium", ["freedom of speech", "expression"]⟩,
     ⟨"What is Article 20?", "easy", ["protection", "conviction", "offences"]⟩,
     ⟨"What is Article 22?", "medium", ["arrest", "detention", "safeguards"]⟩,
     ⟨"Explain Article 12", "easy", ["State", "definition", "authorities"]⟩,
     ⟨"What is Article 15?", "easy", ["discrimination", "religion", "caste", "sex"]⟩,
     ⟨"What does Article 16 protect?", "medium", ["equality", "employment", "public"]⟩,
     ⟨"What is Article 17?", "easy", ["untouchability", "abolished"]⟩,
     ⟨"Explain Article 23", "medium", ["traffic", "human beings", "forced labour"]⟩,
     ⟨"What is Article 24?", "easy", ["children", "factories", "employment"]⟩,
     ⟨"What does Article 25 guarantee?", "medium", ["religion", "conscience", "practice"]⟩,
     ⟨"What is Article 26?", "medium", ["religious denominations", "affairs", "manage"]⟩,
     ⟨"Explain Article 29", "medium", ["minorities", "culture", "language", "script"]⟩,
     ⟨"What is Article 30?", "medium", ["minorities", "educational institutions"]⟩,
     ⟨"What is Article 44?", "easy", ["uniform civil code", "directive"]⟩,
     ⟨"Explain Article 51A", "medium", ["fundamental duties", "citizens"]⟩,
     ⟨"What is Article 124?", "medium", ["Supreme Court", "establishment"]⟩,
     ⟨"What does Article 226 provide?", "medium", ["High Courts", "writs", "power"]⟩,
     ⟨"What is Article 370?", "hard", ["Jammu Kashmir", "special status", "abrogated"]⟩,
     ⟨"Explain Article 356", "hard", ["President\x27s rule", "emergency", "state"]⟩]),
   ("fundamental_rights",
    [⟨"List all fundamental rights", "medium", ["equality", "freedom", "exploitation", "religion", "cultural", "constitutional"]⟩,
     ⟨"What is Right to Equality?", "easy", ["Article 14", "equal protection", "discrimination"]⟩,
     ⟨"Can fundamental rights be suspended?", "hard", ["emergency", "Article 359", "Article 19"]⟩,
     ⟨"What are writs under Article 32?", "medium", ["habeas corpus", "mandamus", "prohibition", "certiorari", "quo warranto"]⟩,
     ⟨"What is Right to Freedom?", "medium", ["Article 19", "speech", "assembly", "movement"]⟩,
     ⟨"What is Right against Exploitation?", "easy", ["Article 23", "24", "traffic", "forced labour", "children"]⟩,
     ⟨"What is Right to Freedom of Religion?", "medium", ["Article 25-28", "conscience", "practice", "propagate"]⟩,
     ⟨"What are Cultural and Educational Rights?", "medium", ["Article 29-30", "minorities", "culture", "language"]⟩,
     ⟨"What is Right to Constitutional Remedies?", "medium", ["Article 32", "Supreme Court", "writs", "enforcement"]⟩,
     ⟨"Which rights cannot be suspended during emergency?", "hard", ["Article 20", "21", "life", "personal liberty"]⟩,
     ⟨"What is the difference between habeas corpus and mandamus?", "hard", ["detention", "duty", "public official"]⟩,
     ⟨"Can fundamental rights be amended?", "hard", ["Kesavananda Bharati", "basic structure", "Parliament"]⟩,
     ⟨"What is positive discrimination?", "medium", ["reservation", "affirmative action", "backward classes"]⟩,
     ⟨"What are reasonable restrictions?", "medium", ["Article 19(2)", "public order", "sovereignty", "decency"]⟩,
     ⟨"Can aliens claim fundamental rights?", "hard", ["Article 14", "21", "foreigners", "limited"]⟩]),
   ("landmark_cases",
    [⟨"What is the Kesavananda Bharati case?", "hard", ["basic structure", "amendment", "Parliament", "1973"]⟩,
     ⟨"Tell me about Shreya Singhal case", "medium", ["Section 66A", "IT Act", "freedom of speech", "struck down"]⟩,
     ⟨"What is Maneka Gandhi case?", "hard", ["passport", "Article 21", "procedure", "just fair reasonable"]⟩,
     ⟨"Explain Puttaswamy case", "hard", ["privacy", "fundamental right", "Aadhaar", "9-judge"]⟩,
     ⟨"What is Golaknath case?", "hard", ["fundamental rights", "amendment", "prospective"]⟩,
     ⟨"What is ADM Jabalpur case?", "hard", ["emergency", "habeas corpus", "Article 21", "overruled"]⟩,
     ⟨"Explain Vishaka case", "medium", ["sexual harassment", "workplace", "guidelines"]⟩,
     ⟨"What is Navtej Singh Johar case?", "medium", ["Section 377", "decriminalized", "LGBTQ", "constitutional"]⟩,
     ⟨"What is Indra Sawhney case?", "hard", ["reservation", "50%", "creamy layer", "Mandal"]⟩,
     ⟨"Explain Shah Bano case", "medium", ["maintenance", "Muslim women", "uniform civil code"]⟩,
     ⟨"What is Minerva Mills case?", "hard", ["42nd Amendment", "judicial review", "limited power"]⟩,
     ⟨"What is Shayara Bano case?", "medium", ["triple talaq", "unconstitutional", "Muslim women"]⟩,
     ⟨"Explain Olga Tellis case", "medium", ["pavement dwellers", "livelihood", "Article 21"]⟩,
     ⟨"What is Bandhua Mukti Morcha case?", "medium", ["bonded labour", "Article 23", "rehabilitation"]⟩,
     ⟨"What is Mohini Jain case?", "medium", ["right to education", "capitation fee", "Article 21"]⟩]),
   ("ipc_sections",
    [⟨"What is IPC Section 302?", "easy", ["murder", "death", "life imprisonment"]⟩,
     ⟨"What is IPC Section 300?", "medium", ["murder", "definition", "intention", "knowledge"]⟩,
     ⟨"What is IPC Section 304?", "medium", ["culpable homicide", "not murder"]⟩,
     ⟨"What is the punishment for theft?", "easy", ["Section 379", "imprisonment", "fine"]⟩,
     ⟨"What is IPC Section 420?", "easy", ["cheating", "fraud", "dishonestly"]⟩,
     ⟨"What is IPC Section 376?", "medium", ["rape", "sexual assault", "punishment"]⟩,
     ⟨"What is IPC Section 498A?", "medium", ["dowry", "cruelty", "husband", "relatives"]⟩,
     ⟨"What is IPC Section 354?", "medium", ["assault", "outrage modesty", "woman"]⟩,
     ⟨"What is defamation under IPC?", "medium", ["Section 499", "500", "reputation"]⟩,
     ⟨"What is IPC Section 506?", "easy", ["criminal intimidation", "threat"]⟩,
     ⟨"What is difference between Section 299 and 300?", "hard", ["culpable homicide", "murder", "intention", "exceptions"]⟩,
     ⟨"What is IPC Section 120B?", "medium", ["criminal conspiracy", "agreement"]⟩,
     ⟨"What is IPC Section 34?", "medium", ["common intention", "acts done"]⟩,
     ⟨"What is IPC Section 107?", "medium", ["abetment", "instigation", "conspiracy"]⟩,
     ⟨"What is IPC Section 511?", "medium", ["attempt", "offence", "punishable"]⟩]),
   ("crpc_sections",
    [⟨"What is CrPC Section 154?", "medium", ["FIR", "information", "cognizable offence"]⟩,
     ⟨"What is CrPC Section 161?", "medium", ["examination", "witnesses", "police"]⟩,
     ⟨"What is CrPC Section 41?", "medium", ["arrest", "without warrant", "cognizable"]⟩,
     ⟨"What is CrPC Section 125?", "medium", ["maintenance", "wife", "children", "parents"]⟩,
     ⟨"What is CrPC Section 156?", "medium", ["police officer", "investigation", "cognizable"]⟩,
     ⟨"What is anticipatory bail?", "medium", ["Section 438", "arrest", "apprehension"]⟩,
     ⟨"What is CrPC Section 482?", "hard", ["High Court", "inherent powers", "quash"]⟩,
     ⟨"What is difference between cognizable and non-cognizable?", "medium", ["arrest", "warrant", "serious"]⟩,
     ⟨"What is CrPC Section 167?", "medium", ["police custody", "judicial custody", "15 days"]⟩,
     ⟨"What is CrPC Section 307?", "medium", ["conclusion", "trial", "acquittal", "conviction"]⟩]),
   ("legal_procedures",
    [⟨"How to file an FIR?", "easy", ["police station", "written", "cognizable", "Section 154"]⟩,
     ⟨"What is the process of bail?", "medium", ["application", "court", "surety", "conditions"]⟩,
     ⟨"How does PIL work?", "medium", ["public interest", "Supreme Court", "High Court", "standing"]⟩,
     ⟨"What is the appeal process?", "medium", ["higher court", "limitation", "grounds"]⟩,
     ⟨"How to file a writ petition?", "hard", ["Article 32", "226", "Supreme Court", "High Court"]⟩,
     ⟨"What is investigation process?", "medium", ["FIR", "evidence", "chargesheet", "Section 173"]⟩,
     ⟨"What is trial procedure?", "medium", ["charges", "evidence", "examination", "judgment"]⟩,
     ⟨"How to file a complaint?", "easy", ["magistrate", "written", "non-cognizable"]⟩,
     ⟨"What is anticipatory bail procedure?", "medium", ["Section 438", "application", "Sessions Court", "High Court"]⟩,
     ⟨"What is quashing of FIR?", "hard", ["Section 482", "inherent powers", "abuse of process"]⟩]),
   ("comparative_questions",
    [⟨"Difference between Article 32 and 226?", "hard", ["Supreme Court", "High Court", "jurisdiction", "writs"]⟩,
     ⟨"Difference between bail and anticipatory bail?", "medium", ["arrest", "before", "after", "conditions"]⟩,
     ⟨"Murder vs Culpable Homicide?", "hard", ["Section 300", "299", "intention", "degree"]⟩,
     ⟨"Cognizable vs Non-cognizable offence?", "medium", ["arrest", "warrant", "severity"]⟩,
     ⟨"Bailable vs Non-bailable offence?", "easy", ["bail", "right", "discretion", "court"]⟩,
     ⟨"FIR vs Complaint?", "medium", ["cognizable", "non-cognizable", "police", "magistrate"]⟩,
     ⟨"Summons case vs Warrant case?", "medium", ["procedure", "punishment", "severity"]⟩,
     ⟨"Sessions Court vs Magistrate Court?", "medium", ["jurisdiction", "punishment", "powers"]⟩,
     ⟨"Supreme Court vs High Court?", "easy", ["apex", "state", "jurisdiction", "appeals"]⟩,
     ⟨"Civil law vs Criminal law?", "easy", ["dispute", "crime", "punishment", "compensation"]⟩]),
   ("scenario_based",
    [⟨"What happens if I kill someone?", "medium", ["Section 302", "murder", "punishment", "life imprisonment", "death"]⟩,
     ⟨"What to do if arrested?", "medium", ["rights", "bail", "lawyer", "remain silent"]⟩,
     ⟨"Can police arrest without warrant?", "medium", ["cognizable", "Section 41", "conditions"]⟩,
     ⟨"What if someone cheats me?", "easy", ["Section 420", "complaint", "FIR", "fraud"]⟩,
     ⟨"What happens if I commit fraud?", "medium", ["Section 420", "punishment", "imprisonment", "fine"]⟩,
     ⟨"Can I get bail in murder case?", "hard", ["non-bailable", "discretion", "court", "conditions"]⟩,
     ⟨"What to do in false FIR?", "medium", ["quash", "Section 482", "anticipatory bail"]⟩,
     ⟨"Rights during police custody?", "medium", ["lawyer", "medical", "inform", "24 hours"]⟩,
     ⟨"What if defamed on social media?", "medium", ["Section 499", "500", "IT Act", "defamation"]⟩,
     ⟨"Can I refuse to give statement to police?", "medium", ["right to silence", "self-incrimination", "Article 20(3)"]⟩]),
   ("rights_based",
    [⟨"What are my rights during arrest?", "medium", ["informed", "grounds", "bail", "lawyer", "medical"]⟩,
     ⟨"Do I have right to remain silent?", "medium", ["Article 20(3)", "self-incrimination", "protection"]⟩,
     ⟨"Can police search my house?", "medium", ["warrant", "Section 100", "privacy", "conditions"]⟩,
     ⟨"What is right to fair trial?", "medium", ["Article 21", "legal aid", "speedy trial", "due process"]⟩,
     ⟨"Can I record police?", "medium", ["right", "evidence", "transparency", "limitations"]⟩,
     ⟨"Right to lawyer during interrogation?", "medium", ["Article 22", "consultation", "present"]⟩,
     ⟨"Can police torture suspects?", "easy", ["illegal", "Article 21", "human rights", "custodial violence"]⟩,
     ⟨"What is right to privacy?", "medium", ["Puttaswamy", "fundamental right", "Article 21", "informational"]⟩,
     ⟨"Can I refuse to give fingerprints?", "hard", ["Section 53", "reasonable", "investigation", "evidence"]⟩,
     ⟨"Right to free legal aid?", "medium", ["Article 39A", "poor", "legal services authority"]⟩]),
   ("edge_cases",
    [⟨"Can a minor be tried for murder?", "hard", ["Juvenile Justice Act", "POCSO", "reformation", "16-18"]⟩,
     ⟨"What if accused is mentally ill?", "hard", ["Section 84", "unsound mind", "incapacity"]⟩,
     ⟨"Can dying declaration be sole evidence?", "hard", ["Section 32", "corroboration", "reliable", "trustworthy"]⟩,
     ⟨"Is suicide illegal in India?", "medium", ["decriminalized", "Section 309", "mental health"]⟩,
     ⟨"Can confession to police be used?", "hard", ["Section 25", "inadmissible", "magistrate", "judicial"]⟩,
     ⟨"What is plea bargaining?", "hard", ["Chapter XXIA", "negotiation", "lesser sentence", "voluntary"]⟩,
     ⟨"Can video evidence be used?", "medium", ["Section 65B", "certificate", "electronic", "authentic"]⟩,
     ⟨"What is narco test?", "hard", ["consent", "unconstitutional", "self-incrimination", "investigation"]⟩,
     ⟨"Can property be seized before conviction?", "hard", ["provisional attachment", "PMLA", "investigation", "court order"]⟩,
     ⟨"What is compoundable offence?", "medium", ["settlement", "compromise", "permission", "court"]⟩])]

/-- The eight rephrasing templates of generateAllQuestions. -/
def variationTexts : List String :=
  ["Explain in detail: ", "What are the key points of ", "Briefly describe ",
   "What is the importance of ", "What are the limitations of ",
   "How does the court interpret ", "What are recent developments in ",
   "Critically analyze "]

/-- The first loop of generateAllQuestions: every question-bank entry in
category order, with ids assigned consecutively from 1. -/
def baseQuestions : List Question :=
  ((questionBank.flatMap (fun p => p.2.map (fun e => (p.1, e)))).enum).map
    (fun ie => ⟨ie.1 + 1, ie.2.1, ie.2.2.q, ie.2.2.difficulty, ie.2.2.expectedKeywords⟩)

/-- generateAllQuestions of LegalQATestSuite.js: the base questions followed
by one lower-cased, template-prefixed variation for every third base
question, gated by the (never binding) 1100-question cap, with the id
counter carrying on. -/
def generateAllQuestions : List Question :=
  (baseQuestions.enum.foldl
    (fun st p =>
      if p.1 % 3 == 0 && st.1.length < 1100 then
        (st.1 ++ [⟨st.2, p.2.category,
            variationTexts.getD (p.1 % variationTexts.length) "" ++ jsToLower p.2.q,
            p.2.difficulty, p.2.expectedKeywords⟩],
         st.2 + 1)
      else st)
    (baseQuestions, baseQuestions.length + 1)).1

/-- C10: the generator always returns the same fixed list of 174 questions:
the 130 question-bank entries (in order) plus 44 variations, one for every
third base question, with ids 1..174 assigned consecutively and hence
pairwise distinct, and far fewer questions than the 1000+ the component
advertises. -/
theorem C10_generate_all_questions :
    baseQuestions.length = 130
    ∧ generateAllQuestions.length = 174
    ∧ generateAllQuestions.take 130 = baseQuestions
    ∧ (generateAllQuestions.drop 130).length = 44
    ∧ generateAllQuestions.map Question.id = List.range' 1 174
    ∧ (generateAllQuestions.map Question.id).Nodup
    ∧ 174 < 1000 := by
  refine ⟨by decide, by decide, by decide, by decide, by decide, ?_, by decide⟩
  have h : generateAllQuestions.map Question.id = List.range' 1 174 := by decide
  rw [h]
  exact List.nodup_range' 1 174

end LegalAI
